import Mathlib

/-!
Verification of the John Snow cholera-map dashboard script
(johnsnow_dashboard_app.py) against its design specification.

The script is a single linear program: it loads two geometry layers
(cholera deaths, water pumps), reprojects them to EPSG:4326 when needed,
reads sidebar display options, builds a folium map consisting of an
optional weighted heat layer, optional one-marker-per-death markers,
one marker (plus optional text label) per pump, and a layer control,
then renders the map, a statistics panel and a sidebar footer.

The shallow embedding below models coordinates as rationals, records as
structures, the folium map as the list of layers in the order they are
added (later layers draw on top), Python exceptions as the error case of
Except, and one Streamlit invocation (first run, empty cache) as a pure
function from the data source and the selected options to the rendered
page.
-/

set_option maxHeartbeats 1000000

namespace JohnSnow

/-- Point geometry of a record, as the script accesses it.
`point x y` models a shapely Point exposing the direct accessors
`geometry.x` / `geometry.y`; `coordSeq cs` models a geometry that lacks
those accessors but exposes the coordinate sequence `geometry.coords`
(a list of (x, y) pairs, possibly empty); `shapeless` models a geometry
exposing neither shape. -/
inductive Geometry where
  | point (x y : Rat)
  | coordSeq (cs : List (Rat × Rat))
  | shapeless
  deriving DecidableEq, Repr

/-- The latitude/longitude extraction duplicated at lines 78-81, 98-101
and 120-123 of the script:
if the geometry has `x` and `y` attributes take `(geometry.y, geometry.x)`,
else take `(geometry.coords[0][1], geometry.coords[0][0])`.
A geometry with an empty coordinate sequence raises IndexError and one
exposing neither shape raises AttributeError; both exceptions are uncaught
in the script, modeled as the Except error case. -/
def getLatLon : Geometry → Except String (Rat × Rat)
  | Geometry.point x y => Except.ok (y, x)
  | Geometry.coordSeq [] => Except.error "IndexError: list index out of range"
  | Geometry.coordSeq (c :: _) => Except.ok (c.2, c.1)
  | Geometry.shapeless => Except.error "AttributeError: geometry has no coordinate access"

/-- A death record: a point geometry plus the optional Count attribute
(`count = none` models a row whose frame has no Count column). -/
structure DeathRec where
  geometry : Geometry
  count : Option Int
  deriving DecidableEq, Repr

/-- A pump record: a point geometry only. -/
structure PumpRec where
  geometry : Geometry
  deriving DecidableEq, Repr

/-- A layer added to the folium map. `heat` carries the heat data list
(lat, lon, weight), min opacity, max opacity, radius, blur and gradient;
markers carry position, popup and tooltip; pump labels carry position and
the label html. The death-marker DivIcon html and the pump icon are
constants in the script and are not repeated here. -/
inductive Layer where
  | heat (data : List (Rat × Rat × Int)) (minOpacity maxOpacity radius blur : Rat)
      (gradient : List (Rat × String))
  | deathMarker (lat lon : Rat) (popup tooltip : String)
  | pumpMarker (lat lon : Rat) (popup tooltip : String)
  | pumpLabel (lat lon : Rat) (html : String)
  | layerControl
  deriving DecidableEq, Repr

def Layer.isHeat : Layer → Bool
  | Layer.heat _ _ _ _ _ _ => true
  | _ => false

def Layer.isDeathMarker : Layer → Bool
  | Layer.deathMarker _ _ _ _ => true
  | _ => false

def Layer.isPumpMarker : Layer → Bool
  | Layer.pumpMarker _ _ _ _ => true
  | _ => false

def Layer.isPumpLabel : Layer → Bool
  | Layer.pumpLabel _ _ _ => true
  | _ => false

/-- The fixed heat gradient of the script:
0.2 orange, 0.5 red, 0.8 darkred. -/
def gradientSpec : List (Rat × String) :=
  [(2/10, "orange"), (5/10, "red"), (8/10, "darkred")]

/-- The sidebar options the script reads (lines 56-63). -/
structure Options where
  show_heatmap : Bool
  show_skeletons : Bool
  show_pump_labels : Bool
  heatmap_radius : Rat
  heatmap_blur : Rat
  heatmap_opacity : Rat
  deriving DecidableEq, Repr

/-- The default value of every sidebar control. -/
def defaultOptions : Options :=
  { show_heatmap := true
    show_skeletons := true
    show_pump_labels := true
    heatmap_radius := 15
    heatmap_blur := 10
    heatmap_opacity := 6/10 }

/-- One sidebar widget: a checkbox with its default, or a slider with
its minimum, maximum and default. -/
inductive Control where
  | checkbox (label : String) (defaultVal : Bool)
  | slider (label : String) (minVal maxVal defaultVal : Rat)
  deriving DecidableEq, Repr

def Control.isCheckbox : Control → Bool
  | Control.checkbox _ _ => true
  | _ => false

def Control.isSlider : Control → Bool
  | Control.slider _ _ _ _ => true
  | _ => false

/-- A slider default must lie inside its bounds (checkbox defaults are
trivially valid). -/
def Control.defaultInRange : Control → Bool
  | Control.checkbox _ _ => true
  | Control.slider _ lo hi d => decide (lo ≤ d) && decide (d ≤ hi)

/-- The sidebar widgets in the order the script creates them
(lines 56-63): three checkboxes then three sliders. -/
def sidebarControls : List Control :=
  [ Control.checkbox "Show Heatmap" true
  , Control.checkbox "Show Skeleton Markers" true
  , Control.checkbox "Show Pump Labels" true
  , Control.slider "Heatmap Radius" 10 30 15
  , Control.slider "Heatmap Blur" 5 20 10
  , Control.slider "Heatmap Opacity" (1/10) 1 (6/10) ]

/-- Default of the checkbox with the given label, if such a checkbox
exists in the sidebar. -/
def findCheckbox (label : String) : Option Bool :=
  sidebarControls.findSome? fun c =>
    match c with
    | Control.checkbox l d => if l = label then some d else none
    | _ => none

/-- Bounds and default (min, max, default) of the slider with the given
label, if such a slider exists in the sidebar. -/
def findSlider (label : String) : Option (Rat × Rat × Rat) :=
  sidebarControls.findSome? fun c =>
    match c with
    | Control.slider l lo hi d => if l = label then some (lo, hi, d) else none
    | _ => none

/-- The heat data list of lines 76-84: for every death record, in order,
an entry (lat, lon, weight) where weight is the Count attribute when the
row has one and 1 otherwise. A record whose geometry resolves by neither
access shape raises, which aborts the whole computation. -/
def heat_data : List DeathRec → Except String (List (Rat × Rat × Int))
  | [] => Except.ok []
  | r :: rs =>
    match getLatLon r.geometry with
    | Except.error e => Except.error e
    | Except.ok (lat, lon) =>
      match heat_data rs with
      | Except.error e => Except.error e
      | Except.ok rest => Except.ok ((lat, lon, r.count.getD 1) :: rest)

/-- Popup text of a death marker (lines 103-105): the death number
(pandas index plus one) and, when the row has a Count column, the count. -/
def deathPopup (idx : Nat) (r : DeathRec) : String :=
  let base := "<b>Cholera Death #" ++ toString (idx + 1) ++ "</b>"
  match r.count with
  | some c => base ++ "<br>Count: " ++ toString c
  | none => base

/-- The html of the text label added next to a pump (line 139). -/
def pumpLabelHtml (n : Nat) : String :=
  "<div style=\"font-size: 12pt; font-weight: bold; color: green; background-color: white; padding: 2px 5px; border: 1px solid green; border-radius: 3px;\">Pump "
    ++ toString n ++ "</div>"

/-- The skeleton-marker loop of lines 96-116: one marker per death
record, in order, numbered from the running index; a record with an
unresolvable geometry raises, aborting the render. -/
def deathMarkersFrom (idx : Nat) : List DeathRec → Except String (List Layer)
  | [] => Except.ok []
  | r :: rs =>
    match getLatLon r.geometry with
    | Except.error e => Except.error e
    | Except.ok (lat, lon) =>
      match deathMarkersFrom (idx + 1) rs with
      | Except.error e => Except.error e
      | Except.ok rest =>
        Except.ok (Layer.deathMarker lat lon (deathPopup idx r)
          ("Cholera Death " ++ toString (idx + 1)) :: rest)

/-- The pump loop of lines 119-141: per pump record, in order, one green
marker followed, when labels are enabled, by one text-label marker; a
pump with an unresolvable geometry raises, aborting the render. -/
def pumpLayersFrom (showLabels : Bool) (idx : Nat) : List PumpRec → Except String (List Layer)
  | [] => Except.ok []
  | r :: rs =>
    match getLatLon r.geometry with
    | Except.error e => Except.error e
    | Except.ok (lat, lon) =>
      match pumpLayersFrom showLabels (idx + 1) rs with
      | Except.error e => Except.error e
      | Except.ok rest =>
        Except.ok (Layer.pumpMarker lat lon
            ("<b>Water Pump #" ++ toString (idx + 1) ++ "</b>")
            ("Water Pump " ++ toString (idx + 1)) ::
          (if showLabels then [Layer.pumpLabel lat lon (pumpLabelHtml (idx + 1))] else [])
            ++ rest)

/-- Lines 75-93: when the heatmap toggle is on, one heat layer holding
the whole heat data list, with min opacity 0.3 and max opacity, radius
and blur taken from the sliders and the fixed gradient; no layer
otherwise. -/
def heatPart (opts : Options) (ds : List DeathRec) : Except String (List Layer) :=
  if opts.show_heatmap then
    match heat_data ds with
    | Except.error e => Except.error e
    | Except.ok hd =>
      Except.ok [Layer.heat hd (3/10) opts.heatmap_opacity opts.heatmap_radius
        opts.heatmap_blur gradientSpec]
  else Except.ok []

/-- Lines 96-116: the death markers when the skeleton toggle is on, no
layer otherwise. -/
def skeletonPart (opts : Options) (ds : List DeathRec) : Except String (List Layer) :=
  if opts.show_skeletons then deathMarkersFrom 0 ds else Except.ok []

/-- The map composition of lines 75-144, as the list of layers in the
order they are added to the map: optional heat layer, optional death
markers, pump markers with optional labels, and the layer control last
(later layers draw on top). Any uncaught exception while iterating a
layer aborts the whole render before the map becomes observable. -/
def renderMap (opts : Options) (ds : List DeathRec) (ps : List PumpRec) :
    Except String (List Layer) :=
  match heatPart opts ds with
  | Except.error e => Except.error e
  | Except.ok hp =>
    match skeletonPart opts ds with
    | Except.error e => Except.error e
    | Except.ok dp =>
      match pumpLayersFrom opts.show_pump_labels 0 ps with
      | Except.error e => Except.error e
      | Except.ok pp => Except.ok (hp ++ dp ++ pp ++ [Layer.layerControl])

/-- Reprojection of the deaths layer (lines 36-37): skipped when the
source has no CRS or its CRS already is EPSG:4326, otherwise the external
transform (a parameter, since projection mathematics is delegated to the
library) is applied to every geometry. -/
def convertDeaths (reproject : String → Geometry → Geometry) (crs : Option String)
    (rs : List DeathRec) : List DeathRec :=
  match crs with
  | none => rs
  | some c =>
    if c = "EPSG:4326" then rs
    else rs.map fun r => { r with geometry := reproject c r.geometry }

/-- Reprojection of the pumps layer (lines 38-39), same rule. -/
def convertPumps (reproject : String → Geometry → Geometry) (crs : Option String)
    (rs : List PumpRec) : List PumpRec :=
  match crs with
  | none => rs
  | some c =>
    if c = "EPSG:4326" then rs
    else rs.map fun r => { r with geometry := reproject c r.geometry }

/-- The dataset directory as the loader sees it: each named layer read
either raises (error, carrying the exception text) or yields an optional
CRS and the records. -/
structure DataSource where
  deathsLayer : Except String (Option String × List DeathRec)
  pumpsLayer : Except String (Option String × List PumpRec)

/-- load_data (lines 27-44): read the deaths layer then the pumps layer,
reproject each to EPSG:4326 when needed, and return both; any exception
is caught, an error panel with the exception text is emitted
(st.error at line 43) and (None, None) is returned. The third component
collects the error-panel texts emitted during loading. -/
def load_data (reproject : String → Geometry → Geometry) (src : DataSource) :
    Option (List DeathRec) × Option (List PumpRec) × List String :=
  match src.deathsLayer with
  | Except.error e => (none, none, ["Error loading data: " ++ e])
  | Except.ok (dcrs, ds) =>
    match src.pumpsLayer with
    | Except.error e => (none, none, ["Error loading data: " ++ e])
    | Except.ok (pcrs, ps) =>
      (some (convertDeaths reproject dcrs ds), some (convertPumps reproject pcrs ps), [])

/-- Latitude accessor of a geometry as the GeoSeries accessor `.y` sees
it: the y coordinate for a point, NaN (modeled as none) for a record
without a point geometry. -/
def geomY : Geometry → Option Rat
  | Geometry.point _ y => some y
  | _ => none

/-- Longitude accessor, `.x`. -/
def geomX : Geometry → Option Rat
  | Geometry.point x _ => some x
  | _ => none

/-- Mean of the valid (non-NaN) values of a pandas numeric series: the
pandas mean skips NaN entries, so the result is NaN (modeled as none,
since the embedding uses exact rationals) exactly when no valid value
remains, and the arithmetic mean of the valid values otherwise. This
function receives the valid values only. -/
def seriesMean (xs : List Rat) : Option Rat :=
  if xs.isEmpty then none else some (xs.sum / (xs.length : Rat))

/-- center_lat of line 50: the pandas mean of the `.y` accessor over the
death records. NaN entries (records without a point geometry) are
skipped by the mean, so the center is NaN (none) exactly when no death
record has a point geometry — in particular for an empty collection. -/
def center_lat (ds : List DeathRec) : Option Rat :=
  seriesMean (ds.filterMap fun r => geomY r.geometry)

/-- center_lon of line 51: the pandas mean of the `.x` accessor over the
death records, same NaN rule. -/
def center_lon (ds : List DeathRec) : Option Rat :=
  seriesMean (ds.filterMap fun r => geomX r.geometry)

/-- The observable outcome of one invocation of the script:
the error panels shown (in order), the uncaught exception if the run
aborted, the rendered map layers (none when no map is shown), the two
statistics metrics (total deaths, total pumps; none when not rendered),
and whether the sidebar About footer (lines 183-195) was reached. -/
structure Page where
  errors : List String
  exception : Option String
  mapLayers : Option (List Layer)
  metrics : Option (Nat × Nat)
  sidebarAbout : Bool
  deriving Repr

/-- One full invocation (lines 46-195): load the data; when both layers
loaded, compute the map center (lines 49-51) as the pandas mean of the
death coordinates, then create the folium map (line 66) — folium
validates the location and raises ValueError when the center is NaN,
which happens exactly when no death record has a point geometry (in
particular for zero death records); that exception is uncaught, so
nothing after the center computation renders, statistics and footer
included. With a numeric center, build the layers and show the map with
the statistics panel, then the footer; an uncaught exception while
building a layer likewise aborts everything after the sidebar controls.
When loading failed, show the generic error panel in place of the map
and still reach the footer. -/
def renderPage (reproject : String → Geometry → Geometry) (src : DataSource)
    (opts : Options) : Page :=
  match load_data reproject src with
  | (some ds, some ps, errs) =>
    match center_lat ds, center_lon ds with
    | some _, some _ =>
      match renderMap opts ds ps with
      | Except.ok L =>
        { errors := errs, exception := none, mapLayers := some L
          metrics := some (ds.length, ps.length), sidebarAbout := true }
      | Except.error e =>
        { errors := errs, exception := some e, mapLayers := none
          metrics := none, sidebarAbout := false }
    | _, _ =>
      { errors := errs
        exception := some "ValueError: Location values cannot contain NaNs."
        mapLayers := none, metrics := none, sidebarAbout := false }
  | (_, _, errs) =>
    { errors := errs ++ ["Could not load the data. Please check if the data folder exists."]
      exception := none, mapLayers := none, metrics := none, sidebarAbout := true }

/-! Concrete sample data used to evaluate the theorems below on closed
inputs. -/

/-- The identity coordinate transform, standing in for the external
projection library on data that needs no conversion. -/
def idReproject : String → Geometry → Geometry := fun _ g => g

def sampleDeaths : List DeathRec := [⟨Geometry.point 1 2, some 3⟩]

def samplePumps : List PumpRec := [⟨Geometry.point 4 5⟩]

/-- The layer list the script produces on the sample dataset with the
default options. -/
def sampleLayers : List Layer :=
  [ Layer.heat [(2, 1, 3)] (3/10) (6/10) 15 10 gradientSpec
  , Layer.deathMarker 2 1 "<b>Cholera Death #1</b><br>Count: 3" "Cholera Death 1"
  , Layer.pumpMarker 5 4 "<b>Water Pump #1</b>" "Water Pump 1"
  , Layer.pumpLabel 5 4 (pumpLabelHtml 1)
  , Layer.layerControl ]

/-- Two death records, the second without a Count attribute. -/
def sampleDeaths2 : List DeathRec :=
  [⟨Geometry.point 1 2, some 5⟩, ⟨Geometry.coordSeq [(3, 4)], none⟩]

/-- A source whose two layers already use EPSG:4326. -/
def sampleSource : DataSource :=
  ⟨Except.ok (some "EPSG:4326", sampleDeaths), Except.ok (some "EPSG:4326", samplePumps)⟩

/-- A source whose deaths layer raises on read. -/
def failingSource : DataSource :=
  ⟨Except.error "No such file or directory", Except.ok (none, [])⟩

/-- A source that loads fine but whose second death record exposes no
resolvable geometry. -/
def mixedSource : DataSource :=
  ⟨Except.ok (none, [⟨Geometry.point 1 2, none⟩, ⟨Geometry.shapeless, none⟩]),
   Except.ok (none, [⟨Geometry.point 4 5⟩])⟩

/-! Helper lemmas. -/

theorem deathMarkersFrom_ok :
    ∀ {idx : Nat} {ds : List DeathRec} {dp : List Layer},
    deathMarkersFrom idx ds = Except.ok dp →
    dp.length = ds.length ∧ ∀ l ∈ dp, l.isDeathMarker = true := by
  intro idx ds
  induction ds generalizing idx with
  | nil =>
    intro dp h
    simp [deathMarkersFrom] at h
    subst h
    simp
  | cons r rs ih =>
    intro dp h
    unfold deathMarkersFrom at h
    cases hg : getLatLon r.geometry with
    | error e => rw [hg] at h; exact absurd h (by simp)
    | ok ll =>
      rw [hg] at h
      cases hrest : deathMarkersFrom (idx + 1) rs with
      | error e => rw [hrest] at h; exact absurd h (by simp)
      | ok rest =>
        rw [hrest] at h
        obtain ⟨len, mem⟩ := ih hrest
        simp only [Except.ok.injEq] at h
        subst h
        constructor
        · simp [len]
        · intro l hl
          rcases List.mem_cons.mp hl with h1 | h2
          · subst h1; rfl
          · exact mem l h2

theorem pumpLayersFrom_ok :
    ∀ {b : Bool} {idx : Nat} {ps : List PumpRec} {pp : List Layer},
    pumpLayersFrom b idx ps = Except.ok pp →
    pp.countP Layer.isPumpMarker = ps.length ∧
      ∀ l ∈ pp, l.isPumpMarker = true ∨ l.isPumpLabel = true := by
  intro b idx ps
  induction ps generalizing idx with
  | nil =>
    intro pp h
    simp [pumpLayersFrom] at h
    subst h
    simp
  | cons r rs ih =>
    intro pp h
    unfold pumpLayersFrom at h
    cases hg : getLatLon r.geometry with
    | error e => rw [hg] at h; exact absurd h (by simp)
    | ok ll =>
      rw [hg] at h
      cases hrest : pumpLayersFrom b (idx + 1) rs with
      | error e => rw [hrest] at h; exact absurd h (by simp)
      | ok rest =>
        rw [hrest] at h
        obtain ⟨cnt, mem⟩ := ih hrest
        simp only [Except.ok.injEq] at h
        subst h
        cases b with
        | false =>
          constructor
          · simp [List.countP_cons, Layer.isPumpMarker, cnt]
          · intro l hl
            simp only [Bool.false_eq_true, if_false, List.nil_append] at hl
            rcases List.mem_cons.mp hl with h1 | h2
            · subst h1; exact Or.inl rfl
            · exact mem l h2
        | true =>
          constructor
          · simp [List.countP_cons, List.countP_append, Layer.isPumpMarker, cnt]
          · intro l hl
            simp only [if_pos rfl, List.singleton_append] at hl
            rcases List.mem_cons.mp hl with h1 | h2
            · subst h1; exact Or.inl rfl
            · rcases List.mem_cons.mp h2 with h3 | h4
              · subst h3; exact Or.inr rfl
              · exact mem l h4

theorem heat_data_err :
    ∀ {ds : List DeathRec},
    (∃ r ∈ ds, ∃ e, getLatLon r.geometry = Except.error e) →
    ∃ e, heat_data ds = Except.error e := by
  intro ds
  induction ds with
  | nil => intro h; simp at h
  | cons r rs ih =>
    intro h
    unfold heat_data
    cases hg : getLatLon r.geometry with
    | error e => exact ⟨e, rfl⟩
    | ok ll =>
      obtain ⟨r0, hr0, e0, he0⟩ := h
      rcases List.mem_cons.mp hr0 with h1 | h2
      · subst h1; rw [hg] at he0; exact absurd he0 (by simp)
      · obtain ⟨e, he⟩ := ih ⟨r0, h2, e0, he0⟩
        rw [he]
        exact ⟨e, rfl⟩

theorem pumpLayersFrom_err :
    ∀ {b : Bool} {idx : Nat} {ps : List PumpRec},
    (∃ r ∈ ps, ∃ e, getLatLon r.geometry = Except.error e) →
    ∃ e, pumpLayersFrom b idx ps = Except.error e := by
  intro b idx ps
  induction ps generalizing idx with
  | nil => intro h; simp at h
  | cons r rs ih =>
    intro h
    unfold pumpLayersFrom
    cases hg : getLatLon r.geometry with
    | error e => exact ⟨e, rfl⟩
    | ok ll =>
      obtain ⟨r0, hr0, e0, he0⟩ := h
      rcases List.mem_cons.mp hr0 with h1 | h2
      · subst h1; rw [hg] at he0; exact absurd he0 (by simp)
      · obtain ⟨e, he⟩ := @ih (idx + 1) ⟨r0, h2, e0, he0⟩
        rw [he]
        exact ⟨e, rfl⟩

theorem heatPart_ok :
    ∀ {opts : Options} {ds : List DeathRec} {hp : List Layer},
    heatPart opts ds = Except.ok hp →
    (opts.show_heatmap = true → ∃ hd, heat_data ds = Except.ok hd ∧
      hp = [Layer.heat hd (3/10) opts.heatmap_opacity opts.heatmap_radius
        opts.heatmap_blur gradientSpec]) ∧
    (opts.show_heatmap = false → hp = []) ∧
    (∀ l ∈ hp, l.isHeat = true) := by
  intro opts ds hp h
  unfold heatPart at h
  cases hb : opts.show_heatmap with
  | false =>
    rw [hb] at h
    simp only [Bool.false_eq_true, if_false, Except.ok.injEq] at h
    subst h
    simp
  | true =>
    rw [hb] at h
    rw [if_pos rfl] at h
    cases hhd : heat_data ds with
    | error e => rw [hhd] at h; exact absurd h (by simp)
    | ok hd =>
      rw [hhd] at h
      simp only [Except.ok.injEq] at h
      subst h
      refine ⟨fun _ => ⟨hd, rfl, rfl⟩, by simp, ?_⟩
      intro l hl
      rw [List.mem_singleton.mp hl]
      rfl

theorem skeletonPart_ok :
    ∀ {opts : Options} {ds : List DeathRec} {dp : List Layer},
    skeletonPart opts ds = Except.ok dp →
    (opts.show_skeletons = true → deathMarkersFrom 0 ds = Except.ok dp) ∧
    (opts.show_skeletons = false → dp = []) ∧
    (∀ l ∈ dp, l.isDeathMarker = true) := by
  intro opts ds dp h
  unfold skeletonPart at h
  cases hb : opts.show_skeletons with
  | false =>
    rw [hb] at h
    simp only [Bool.false_eq_true, if_false, Except.ok.injEq] at h
    subst h
    simp
  | true =>
    rw [hb] at h
    rw [if_pos rfl] at h
    exact ⟨fun _ => h, by simp, (deathMarkersFrom_ok h).2⟩

theorem renderMap_ok_inv :
    ∀ {opts : Options} {ds : List DeathRec} {ps : List PumpRec} {L : List Layer},
    renderMap opts ds ps = Except.ok L →
    ∃ hp dp pp,
      heatPart opts ds = Except.ok hp ∧
      skeletonPart opts ds = Except.ok dp ∧
      pumpLayersFrom opts.show_pump_labels 0 ps = Except.ok pp ∧
      L = hp ++ dp ++ pp ++ [Layer.layerControl] := by
  intro opts ds ps L h
  unfold renderMap at h
  cases hhp : heatPart opts ds with
  | error e => rw [hhp] at h; exact absurd h (by simp)
  | ok hp =>
    rw [hhp] at h
    cases hdp : skeletonPart opts ds with
    | error e => rw [hdp] at h; exact absurd h (by simp)
    | ok dp =>
      rw [hdp] at h
      cases hpp : pumpLayersFrom opts.show_pump_labels 0 ps with
      | error e => rw [hpp] at h; exact absurd h (by simp)
      | ok pp =>
        rw [hpp] at h
        simp only [Except.ok.injEq] at h
        exact ⟨hp, dp, pp, rfl, rfl, rfl, h.symm⟩

theorem renderMap_of_parts :
    ∀ {opts : Options} {ds : List DeathRec} {ps : List PumpRec}
      {hp dp pp : List Layer},
    heatPart opts ds = Except.ok hp →
    skeletonPart opts ds = Except.ok dp →
    pumpLayersFrom opts.show_pump_labels 0 ps = Except.ok pp →
    renderMap opts ds ps = Except.ok (hp ++ dp ++ pp ++ [Layer.layerControl]) := by
  intro opts ds ps hp dp pp h1 h2 h3
  unfold renderMap
  rw [h1, h2, h3]

/-! Claim theorems. -/

/-- C2: for every dataset the script renders without raising, with the
skeleton toggle enabled, the number of rendered death markers equals the
number of death records and the number of rendered pump markers equals
the number of pump records (pump text labels are separate DivIcon
layers, not pump markers). -/
theorem claim2_marker_counts :
    ∀ (opts : Options) (ds : List DeathRec) (ps : List PumpRec) (L : List Layer),
    opts.show_skeletons = true →
    renderMap opts ds ps = Except.ok L →
    L.countP Layer.isDeathMarker = ds.length ∧
    L.countP Layer.isPumpMarker = ps.length := by
  intro opts ds ps L hskel h
  obtain ⟨hp, dp, pp, hhp, hdp, hpp, hL⟩ := renderMap_ok_inv h
  obtain ⟨_, _, hpHeat⟩ := heatPart_ok hhp
  obtain ⟨sOn, _, dpDeath⟩ := skeletonPart_ok hdp
  obtain ⟨ppCount, ppMem⟩ := pumpLayersFrom_ok hpp
  obtain ⟨dpLen, _⟩ := deathMarkersFrom_ok (sOn hskel)
  subst hL
  have h1 : hp.countP Layer.isDeathMarker = 0 := List.countP_eq_zero.mpr (fun l hl => by
    have := hpHeat l hl
    cases l <;> simp_all [Layer.isHeat, Layer.isDeathMarker])
  have h2 : pp.countP Layer.isDeathMarker = 0 := List.countP_eq_zero.mpr (fun l hl => by
    have := ppMem l hl
    cases l <;> simp_all [Layer.isPumpMarker, Layer.isPumpLabel, Layer.isDeathMarker])
  have h3 : dp.countP Layer.isDeathMarker = dp.length := List.countP_eq_length.mpr dpDeath
  have h4 : hp.countP Layer.isPumpMarker = 0 := List.countP_eq_zero.mpr (fun l hl => by
    have := hpHeat l hl
    cases l <;> simp_all [Layer.isHeat, Layer.isPumpMarker])
  have h5 : dp.countP Layer.isPumpMarker = 0 := List.countP_eq_zero.mpr (fun l hl => by
    have := dpDeath l hl
    cases l <;> simp_all [Layer.isDeathMarker, Layer.isPumpMarker])
  constructor
  · simp [List.countP_append, List.countP_cons, h1, h2, h3, dpLen, Layer.isDeathMarker]
  · simp [List.countP_append, List.countP_cons, h4, h5, ppCount, Layer.isPumpMarker]

/-- Witness for C2 on the sample dataset: one death record gives one
death marker, one pump record gives one pump marker. -/
theorem claim2_witness :
    List.countP Layer.isDeathMarker sampleLayers = sampleDeaths.length ∧
    List.countP Layer.isPumpMarker sampleLayers = samplePumps.length :=
  claim2_marker_counts defaultOptions sampleDeaths samplePumps sampleLayers rfl rfl

/-- C3: for every death record the heat-data weight is the raw value of
its Count attribute, and exactly 1 for a record lacking one: the weights
of the heat entries are, position by position, the Count values with
default 1. -/
theorem claim3_heat_weights :
    ∀ (ds : List DeathRec) (hd : List (Rat × Rat × Int)),
    heat_data ds = Except.ok hd →
    hd.map (fun t => t.2.2) = ds.map (fun r => r.count.getD 1) := by
  intro ds
  induction ds with
  | nil =>
    intro hd h
    simp [heat_data] at h
    subst h
    simp
  | cons r rs ih =>
    intro hd h
    unfold heat_data at h
    cases hg : getLatLon r.geometry with
    | error e => rw [hg] at h; exact absurd h (by simp)
    | ok ll =>
      rw [hg] at h
      cases hrest : heat_data rs with
      | error e => rw [hrest] at h; exact absurd h (by simp)
      | ok rest =>
        rw [hrest] at h
        simp only [Except.ok.injEq] at h
        subst h
        simp [ih rest hrest]

/-- Witness for C3: a record with Count 5 weighs 5, a record without a
Count attribute weighs 1. -/
theorem claim3_witness :
    List.map (fun t => t.2.2)
      ([((2 : Rat), (1 : Rat), (5 : Int)), ((4 : Rat), (3 : Rat), (1 : Int))]) =
    List.map (fun r => r.count.getD 1) sampleDeaths2 :=
  claim3_heat_weights sampleDeaths2 [(2, 1, 5), (4, 3, 1)] rfl

/-- C5: reprojection to EPSG:4326 is skipped for a layer already in
EPSG:4326, so loading leaves every record of such a layer unchanged,
both at the level of the conversion helpers and through load_data. -/
theorem claim5_reprojection_noop :
    (∀ (reproject : String → Geometry → Geometry) (rs : List DeathRec),
      convertDeaths reproject (some "EPSG:4326") rs = rs) ∧
    (∀ (reproject : String → Geometry → Geometry) (rs : List PumpRec),
      convertPumps reproject (some "EPSG:4326") rs = rs) ∧
    (∀ (reproject : String → Geometry → Geometry) (src : DataSource)
       (ds : List DeathRec) (ps : List PumpRec),
      src.deathsLayer = Except.ok (some "EPSG:4326", ds) →
      src.pumpsLayer = Except.ok (some "EPSG:4326", ps) →
      load_data reproject src = (some ds, some ps, [])) := by
  refine ⟨?_, ?_, ?_⟩
  · intro f rs; simp [convertDeaths]
  · intro f rs; simp [convertPumps]
  · intro f src ds ps h1 h2
    unfold load_data
    rw [h1, h2]
    simp [convertDeaths, convertPumps]

/-- Witness for C5: loading the sample EPSG:4326 source returns its
records unchanged. -/
theorem claim5_witness :
    load_data idReproject sampleSource = (some sampleDeaths, some samplePumps, []) :=
  claim5_reprojection_noop.2.2 idReproject sampleSource sampleDeaths samplePumps rfl rfl

/-- C6: for every dataset and option selection whose render succeeds
with the heatmap on, rendering the same selection with the heatmap off
yields exactly the same layer list with the density layer (and nothing
else) removed: pump markers, pump labels and death markers are
unchanged. -/
theorem claim6_heatmap_toggle_frame :
    ∀ (opts : Options) (ds : List DeathRec) (ps : List PumpRec) (L : List Layer),
    opts.show_heatmap = true →
    renderMap opts ds ps = Except.ok L →
    renderMap { opts with show_heatmap := false } ds ps =
      Except.ok (L.filter fun l => !l.isHeat) := by
  intro opts ds ps L hon h
  obtain ⟨hp, dp, pp, hhp, hdp, hpp, hL⟩ := renderMap_ok_inv h
  obtain ⟨_, _, hpHeat⟩ := heatPart_ok hhp
  obtain ⟨_, _, dpDeath⟩ := skeletonPart_ok hdp
  obtain ⟨_, ppMem⟩ := pumpLayersFrom_ok hpp
  have hhpOff : heatPart { opts with show_heatmap := false } ds = Except.ok [] := by
    simp [heatPart]
  have hdpOff : skeletonPart { opts with show_heatmap := false } ds = Except.ok dp := hdp
  have hppOff :
      pumpLayersFrom ({ opts with show_heatmap := false }).show_pump_labels 0 ps =
        Except.ok pp := hpp
  rw [renderMap_of_parts hhpOff hdpOff hppOff]
  subst hL
  have f1 : hp.filter (fun l => !l.isHeat) = [] :=
    List.filter_eq_nil_iff.mpr (fun l hl => by
      have := hpHeat l hl
      simp [this])
  have f2 : dp.filter (fun l => !l.isHeat) = dp :=
    List.filter_eq_self.mpr (fun l hl => by
      have := dpDeath l hl
      cases l <;> simp_all [Layer.isDeathMarker, Layer.isHeat])
  have f3 : pp.filter (fun l => !l.isHeat) = pp :=
    List.filter_eq_self.mpr (fun l hl => by
      have := ppMem l hl
      cases l <;> simp_all [Layer.isPumpMarker, Layer.isPumpLabel, Layer.isHeat])
  have f4 : List.filter (fun l => !l.isHeat) [Layer.layerControl] = [Layer.layerControl] := rfl
  simp only [List.filter_append, f1, f2, f3, f4, List.nil_append]

/-- Witness for C6 on the sample dataset. -/
theorem claim6_witness :
    renderMap { defaultOptions with show_heatmap := false } sampleDeaths samplePumps =
      Except.ok (sampleLayers.filter fun l => !l.isHeat) :=
  claim6_heatmap_toggle_frame defaultOptions sampleDeaths samplePumps sampleLayers rfl rfl

/-- C8: every successful render produces the layers in the fixed order
heat layer (one layer when the toggle is on, none otherwise), then the
death markers (one per record when the toggle is on, none otherwise),
then the pump markers and optional labels as emitted by the pump loop
(one marker per pump record), with the layer control last; the list
order is the add order, and later layers draw on top. -/
theorem claim8_layer_order :
    ∀ (opts : Options) (ds : List DeathRec) (ps : List PumpRec) (L : List Layer),
    renderMap opts ds ps = Except.ok L →
    ∃ hp dp pp,
      L = hp ++ dp ++ pp ++ [Layer.layerControl] ∧
      (∀ l ∈ hp, l.isHeat = true) ∧
      (opts.show_heatmap = true → ∃ hd, heat_data ds = Except.ok hd ∧
        hp = [Layer.heat hd (3/10) opts.heatmap_opacity opts.heatmap_radius
          opts.heatmap_blur gradientSpec]) ∧
      (opts.show_heatmap = false → hp = []) ∧
      (∀ l ∈ dp, l.isDeathMarker = true) ∧
      (opts.show_skeletons = true → dp.length = ds.length) ∧
      (opts.show_skeletons = false → dp = []) ∧
      pumpLayersFrom opts.show_pump_labels 0 ps = Except.ok pp ∧
      (∀ l ∈ pp, l.isPumpMarker = true ∨ l.isPumpLabel = true) ∧
      pp.countP Layer.isPumpMarker = ps.length := by
  intro opts ds ps L h
  obtain ⟨hp, dp, pp, hhp, hdp, hpp, hL⟩ := renderMap_ok_inv h
  obtain ⟨hOn, hOff, hpHeat⟩ := heatPart_ok hhp
  obtain ⟨sOn, sOff, dpDeath⟩ := skeletonPart_ok hdp
  obtain ⟨ppCount, ppMem⟩ := pumpLayersFrom_ok hpp
  exact ⟨hp, dp, pp, hL, hpHeat, hOn, hOff, dpDeath,
    fun hs => (deathMarkersFrom_ok (sOn hs)).1, sOff, hpp, ppMem, ppCount⟩

/-- Witness for C8 on the sample dataset with the default options. -/
theorem claim8_witness :
    ∃ hp dp pp,
      sampleLayers = hp ++ dp ++ pp ++ [Layer.layerControl] ∧
      (∀ l ∈ hp, l.isHeat = true) ∧
      (defaultOptions.show_heatmap = true → ∃ hd, heat_data sampleDeaths = Except.ok hd ∧
        hp = [Layer.heat hd (3/10) defaultOptions.heatmap_opacity defaultOptions.heatmap_radius
          defaultOptions.heatmap_blur gradientSpec]) ∧
      (defaultOptions.show_heatmap = false → hp = []) ∧
      (∀ l ∈ dp, l.isDeathMarker = true) ∧
      (defaultOptions.show_skeletons = true → dp.length = sampleDeaths.length) ∧
      (defaultOptions.show_skeletons = false → dp = []) ∧
      pumpLayersFrom defaultOptions.show_pump_labels 0 samplePumps = Except.ok pp ∧
      (∀ l ∈ pp, l.isPumpMarker = true ∨ l.isPumpLabel = true) ∧
      pp.countP Layer.isPumpMarker = samplePumps.length :=
  claim8_layer_order defaultOptions sampleDeaths samplePumps sampleLayers rfl

/-- C1 counterexample: with a failing deaths layer, the page shows TWO
user-visible error panels, not a single one — the loader panel carrying
the exception text and the generic panel shown in place of the map — so
the claim that a single error message is shown is false as stated. -/
theorem claim1_counterexample :
    (renderPage idReproject failingSource defaultOptions).errors =
      ["Error loading data: No such file or directory",
       "Could not load the data. Please check if the data folder exists."] ∧
    (renderPage idReproject failingSource defaultOptions).errors.length = 2 :=
  ⟨rfl, rfl⟩

/-- C1 amended: when reading either named layer fails, the load fails
as a unit — both layers come back absent, no map and no markers are
rendered, no metrics are shown, the run does not crash, the sidebar
About text still renders, and exactly two error panels appear: the
loader panel whose text contains the caught exception text, then the
generic panel in place of the map. -/
theorem claim1_amended_failure_unit :
    ∀ (reproject : String → Geometry → Geometry) (src : DataSource)
      (opts : Options) (e : String),
    (src.deathsLayer = Except.error e ∨
      ((∃ v, src.deathsLayer = Except.ok v) ∧ src.pumpsLayer = Except.error e)) →
    (load_data reproject src).1 = none ∧
    (load_data reproject src).2.1 = none ∧
    (renderPage reproject src opts).errors =
      ["Error loading data: " ++ e,
       "Could not load the data. Please check if the data folder exists."] ∧
    (renderPage reproject src opts).mapLayers = none ∧
    (renderPage reproject src opts).metrics = none ∧
    (renderPage reproject src opts).exception = none ∧
    (renderPage reproject src opts).sidebarAbout = true := by
  intro f src opts e hfail
  have hload : load_data f src = (none, none, ["Error loading data: " ++ e]) := by
    rcases hfail with hd | ⟨⟨v, hdok⟩, hperr⟩
    · unfold load_data
      rw [hd]
    · obtain ⟨dcrs, dsv⟩ := v
      unfold load_data
      rw [hdok, hperr]
  refine ⟨by simp [hload], by simp [hload], ?_, ?_, ?_, ?_, ?_⟩ <;>
    · unfold renderPage
      rw [hload]
      try rfl

/-- Witness for the amended C1 at the failing sample source. -/
theorem claim1_witness :
    (renderPage idReproject failingSource defaultOptions).mapLayers = none ∧
    (renderPage idReproject failingSource defaultOptions).sidebarAbout = true :=
  ⟨(claim1_amended_failure_unit idReproject failingSource defaultOptions
      "No such file or directory" (Or.inl rfl)).2.2.2.1,
   (claim1_amended_failure_unit idReproject failingSource defaultOptions
      "No such file or directory" (Or.inl rfl)).2.2.2.2.2.2⟩

/-- C9: the sidebar exposes exactly three checkboxes (Show Heatmap,
Show Skeleton Markers, Show Pump Labels, all defaulting to on) and
exactly three sliders with fixed bounds and defaults — radius 10 to 30
default 15, blur 5 to 20 default 10, opacity 0.1 to 1.0 default 0.6 —
and every slider default lies inside its bounds, so range clamping by
the host is the only validation needed. -/
theorem claim9_sidebar_controls :
    (sidebarControls.filter Control.isCheckbox).length = 3 ∧
    (sidebarControls.filter Control.isSlider).length = 3 ∧
    sidebarControls.length = 6 ∧
    findCheckbox "Show Heatmap" = some true ∧
    findCheckbox "Show Skeleton Markers" = some true ∧
    findCheckbox "Show Pump Labels" = some true ∧
    findSlider "Heatmap Radius" = some (10, 30, 15) ∧
    findSlider "Heatmap Blur" = some (5, 20, 10) ∧
    findSlider "Heatmap Opacity" = some (1/10, 1, 6/10) ∧
    sidebarControls.all Control.defaultInRange = true := by
  refine ⟨rfl, rfl, rfl, rfl, rfl, rfl, rfl, rfl, rfl, ?_⟩
  simp [sidebarControls, Control.defaultInRange, List.all]
  norm_num

theorem mapM_option_length :
    ∀ {α β : Type} (f : α → Option β) {l : List α} {l2 : List β},
    l.mapM f = some l2 → l2.length = l.length := by
  intro α β f l
  induction l with
  | nil =>
    intro l2 h
    have h2 : some ([] : List β) = some l2 := h
    cases h2
    rfl
  | cons a t ih =>
    intro l2 h
    simp only [List.mapM_cons] at h
    cases hfa : f a with
    | none => rw [hfa] at h; exact absurd h (by simp)
    | some b =>
      rw [hfa] at h
      cases hm : t.mapM f with
      | none => rw [hm] at h; exact absurd h (by simp)
      | some bs =>
        rw [hm] at h
        simp only [Option.bind_some, Option.bind_eq_bind] at h
        have : b :: bs = l2 := by simpa using h
        subst this
        simp [ih hm]

theorem mapM_option_filterMap :
    ∀ {α β : Type} (f : α → Option β) {l : List α} {l2 : List β},
    l.mapM f = some l2 → l.filterMap f = l2 := by
  intro α β f l
  induction l with
  | nil =>
    intro l2 h
    have h2 : some ([] : List β) = some l2 := h
    cases h2
    rfl
  | cons a t ih =>
    intro l2 h
    simp only [List.mapM_cons] at h
    cases hfa : f a with
    | none => rw [hfa] at h; exact absurd h (by simp)
    | some b =>
      rw [hfa] at h
      cases hm : t.mapM f with
      | none => rw [hm] at h; exact absurd h (by simp)
      | some bs =>
        rw [hm] at h
        have hbs : b :: bs = l2 := by simpa using h
        subst hbs
        simp [List.filterMap_cons, hfa, ih hm]

/-- C4 counterexample: a deaths collection whose second record exposes
neither geometry shape does not merely skip that record — the uncaught
exception aborts the whole render: the first (resolvable) death record,
the pump record, the statistics and the sidebar About footer all fail to
render, refuting that only the offending record fails with no effect on
the rest. -/
theorem claim4_counterexample :
    (renderPage idReproject mixedSource defaultOptions).mapLayers = none ∧
    (renderPage idReproject mixedSource defaultOptions).exception =
      some "AttributeError: geometry has no coordinate access" ∧
    (renderPage idReproject mixedSource defaultOptions).metrics = none ∧
    (renderPage idReproject mixedSource defaultOptions).sidebarAbout = false :=
  ⟨rfl, rfl, rfl, rfl⟩

/-- C4 amended: the script tolerates the two geometry access shapes
(direct x/y accessors, else the first entry of a coordinate sequence)
and a record exposing neither cannot be plotted; but the failure is an
uncaught exception that aborts the entire render — when any death record
fails (with the heatmap on) or any pump record fails, the whole map
raises, and on a page that reached the render (numeric map center) this
leaves no map, no metrics and no About footer, rather than only that
record failing. -/
theorem claim4_amended_geometry_fallback :
    (∀ x y : Rat, getLatLon (Geometry.point x y) = Except.ok (y, x)) ∧
    (∀ (x y : Rat) (rest : List (Rat × Rat)),
      getLatLon (Geometry.coordSeq ((x, y) :: rest)) = Except.ok (y, x)) ∧
    (∀ g : Geometry, (∀ x y : Rat, g ≠ Geometry.point x y) →
      (∀ (x y : Rat) (rest : List (Rat × Rat)),
        g ≠ Geometry.coordSeq ((x, y) :: rest)) →
      ∃ e, getLatLon g = Except.error e) ∧
    (∀ (opts : Options) (ds : List DeathRec) (ps : List PumpRec),
      opts.show_heatmap = true →
      (∃ r ∈ ds, ∃ e, getLatLon r.geometry = Except.error e) →
      ∃ e, renderMap opts ds ps = Except.error e) ∧
    (∀ (opts : Options) (ds : List DeathRec) (ps : List PumpRec),
      (∃ r ∈ ps, ∃ e, getLatLon r.geometry = Except.error e) →
      ∃ e, renderMap opts ds ps = Except.error e) ∧
    (∀ (reproject : String → Geometry → Geometry) (src : DataSource) (opts : Options)
       (ds : List DeathRec) (ps : List PumpRec) (errs : List String)
       (la lo : Rat) (e : String),
      load_data reproject src = (some ds, some ps, errs) →
      center_lat ds = some la →
      center_lon ds = some lo →
      renderMap opts ds ps = Except.error e →
      (renderPage reproject src opts).mapLayers = none ∧
      (renderPage reproject src opts).exception = some e ∧
      (renderPage reproject src opts).metrics = none ∧
      (renderPage reproject src opts).sidebarAbout = false) := by
  refine ⟨fun x y => rfl, fun x y rest => rfl, ?_, ?_, ?_, ?_⟩
  · intro g h1 h2
    cases g with
    | point x y => exact absurd rfl (h1 x y)
    | coordSeq cs =>
      cases cs with
      | nil => exact ⟨_, rfl⟩
      | cons c rest =>
        obtain ⟨x, y⟩ := c
        exact absurd rfl (h2 x y rest)
    | shapeless => exact ⟨_, rfl⟩
  · intro opts ds ps hon hex
    obtain ⟨e, he⟩ := heat_data_err hex
    refine ⟨e, ?_⟩
    unfold renderMap heatPart
    rw [hon, if_pos rfl, he]
  · intro opts ds ps hex
    cases hhp : heatPart opts ds with
    | error e => exact ⟨e, by unfold renderMap; rw [hhp]⟩
    | ok hp =>
      cases hdp : skeletonPart opts ds with
      | error e => exact ⟨e, by unfold renderMap; rw [hhp, hdp]⟩
      | ok dp =>
        obtain ⟨e, he⟩ := @pumpLayersFrom_err opts.show_pump_labels 0 ps hex
        exact ⟨e, by unfold renderMap; rw [hhp, hdp, he]⟩
  · intro f src opts ds ps errs la lo e h1 hla hlo h2
    have hpage : renderPage f src opts =
        { errors := errs, exception := some e, mapLayers := none
          metrics := none, sidebarAbout := false } := by
      unfold renderPage
      rw [h1]
      simp [hla, hlo, h2]
    simp [hpage]

/-- Witness for the amended C4: both access shapes succeed on concrete
geometries, a shapeless geometry raises, a dataset holding such a record
makes the whole render raise, and on the concrete mixed source the page
consequently loses its About footer. -/
theorem claim4_witness :
    getLatLon (Geometry.point 1 2) = Except.ok (2, 1) ∧
    getLatLon (Geometry.coordSeq [(3, 4)]) = Except.ok (4, 3) ∧
    (∃ e, getLatLon Geometry.shapeless = Except.error e) ∧
    (∃ e, renderMap defaultOptions [⟨Geometry.shapeless, none⟩] [] = Except.error e) ∧
    (renderPage idReproject mixedSource defaultOptions).sidebarAbout = false :=
  ⟨claim4_amended_geometry_fallback.1 1 2,
   claim4_amended_geometry_fallback.2.1 3 4 [],
   claim4_amended_geometry_fallback.2.2.1 Geometry.shapeless
     (fun _ _ h => Geometry.noConfusion h) (fun _ _ _ h => Geometry.noConfusion h),
   claim4_amended_geometry_fallback.2.2.2.1 defaultOptions [⟨Geometry.shapeless, none⟩] [] rfl
     ⟨⟨Geometry.shapeless, none⟩, List.mem_singleton_self _,
       "AttributeError: geometry has no coordinate access", rfl⟩,
   (claim4_amended_geometry_fallback.2.2.2.2.2 idReproject mixedSource defaultOptions
     [⟨Geometry.point 1 2, none⟩, ⟨Geometry.shapeless, none⟩] [⟨Geometry.point 4 5⟩] []
     (([2] : List Rat).sum / (([2] : List Rat).length : Rat))
     (([1] : List Rat).sum / (([1] : List Rat).length : Rat))
     "AttributeError: geometry has no coordinate access"
     rfl rfl rfl rfl).2.2.2⟩

/-- C10: the map center is the arithmetic mean of the death-record y
coordinates (latitude) and x coordinates (longitude); it is a number
only when the death collection is non-empty, and for a successfully
loaded empty collection both means are NaN (modeled as none). -/
theorem claim10_center_mean :
    ∀ (ds : List DeathRec) (ys xs : List Rat),
    (ds.mapM fun r => geomY r.geometry) = some ys →
    (ds.mapM fun r => geomX r.geometry) = some xs →
    ((ds ≠ [] → center_lat ds = some (ys.sum / (ys.length : Rat)) ∧
                center_lon ds = some (xs.sum / (xs.length : Rat))) ∧
     (ds = [] → center_lat ds = none ∧ center_lon ds = none)) := by
  intro ds ys xs hy hx
  constructor
  · intro hne
    have hylen : ys.length = ds.length := mapM_option_length _ hy
    have hxlen : xs.length = ds.length := mapM_option_length _ hx
    have hdlen : ds.length ≠ 0 := by
      cases ds with
      | nil => exact absurd rfl hne
      | cons d t => simp
    have hyne : ys ≠ [] := by
      intro hnil
      rw [hnil] at hylen
      exact hdlen hylen.symm
    have hxne : xs ≠ [] := by
      intro hnil
      rw [hnil] at hxlen
      exact hdlen hxlen.symm
    constructor
    · unfold center_lat
      rw [mapM_option_filterMap _ hy]
      simp [seriesMean, hyne]
    · unfold center_lon
      rw [mapM_option_filterMap _ hx]
      simp [seriesMean, hxne]
  · intro hemp
    subst hemp
    exact ⟨rfl, rfl⟩

/-- Witness for C10: a two-record collection has center (4, 2) — the
means of the y values 2, 6 and the x values 1, 3 — and the empty
collection has no numeric center. -/
theorem claim10_witness :
    (center_lat [⟨Geometry.point 1 2, none⟩, ⟨Geometry.point 3 6, none⟩] =
        some (([2, 6] : List Rat).sum / ((([2, 6] : List Rat).length : Nat) : Rat)) ∧
     center_lon [⟨Geometry.point 1 2, none⟩, ⟨Geometry.point 3 6, none⟩] =
        some (([1, 3] : List Rat).sum / ((([1, 3] : List Rat).length : Nat) : Rat))) ∧
    (center_lat ([] : List DeathRec) = none ∧ center_lon ([] : List DeathRec) = none) :=
  ⟨(claim10_center_mean [⟨Geometry.point 1 2, none⟩, ⟨Geometry.point 3 6, none⟩]
      [2, 6] [1, 3] rfl rfl).1 (by simp),
   (claim10_center_mean [] [] [] rfl rfl).2 rfl⟩

end JohnSnow
